import Mathlib

/-!
Verification of the conversion orchestrator of `zotero-files2md`
(`src/zotero_files2md/converter.py`), as a shallow embedding.

The filesystem is modelled as a finite map from path strings to file
contents plus a list of existing directories; paths listed in
`unwritable` make a write raise, modelling OS-level write errors.
The Docling engine is an opaque parameter: a function from a source
path to either a raised exception (`Except.error`) or a conversion
result carrying an optional document (a list of pages).
-/

namespace ZoteroFiles2md

/-- Metadata of one Zotero attachment (`models.AttachmentMetadata`),
consumed read-only by the converter. -/
structure AttachmentMetadata where
  attachment_key : String
  title : String
  parent_item_key : String
  parent_title : String
  deriving DecidableEq, Repr

/-- Export configuration (`settings.ExportSettings`): output directory,
overwrite / dry-run policy and the conversion tuning knobs.  Python's
float `image_resolution_scale` is modelled as an integer; only equality
on it is ever used (for the converter cache key). -/
structure ExportSettings where
  output_dir : String
  overwrite : Bool
  dry_run : Bool
  force_full_page_ocr : Bool
  do_picture_description : Bool
  image_resolution_scale : Int
  num_threads : Nat
  deriving DecidableEq, Repr

/-- Character-wise sanitization used by `slugOf`: lower-case
alphanumerics, anything else becomes a hyphen. -/
def sanitizeChars : List Char → List Char
  | [] => []
  | c :: cs => (if c.isAlphanum then c.toLower else '-') :: sanitizeChars cs

/-- Modelled from the spec: the slug helper lives in `utils.py`, which is
not among the provided sources.  The spec requires a deterministic,
filesystem-safe name derived from the title, falling back to the raw key
when the title is empty, and collision-resistant across distinct keys. -/
def slugOf (title key : String) : String :=
  if title = "" then key
  else String.mk (sanitizeChars title.data) ++ "-" ++ key

/-- Modelled from the spec: the per-parent subdirectory of the output
path, `output_dir/<slug(parent)>` (`compute_output_path` in `utils.py`
is not among the provided sources). -/
def outputSubdir (attachment : AttachmentMetadata) (outputDir : String) : String :=
  outputDir ++ "/" ++ slugOf attachment.parent_title attachment.parent_item_key

/-- Modelled from the spec: `compute_output_path` in `utils.py` is not
among the provided sources.  The spec fixes the shape
`output_dir/<slug(parent)>/<slug(attachment)>.md`. -/
def compute_output_path (attachment : AttachmentMetadata) (outputDir : String) : String :=
  outputSubdir attachment outputDir ++ "/" ++ slugOf attachment.title attachment.attachment_key ++ ".md"

/-- Filesystem model: files as an association list from path to content
(UTF-8 text), existing directories, and paths whose writes fail. -/
structure FS where
  files : List (String × String)
  dirs : List String
  unwritable : List String
  deriving DecidableEq, Repr

/-- `Path.exists()` on a file path: the path is bound in the file map. -/
def FS.existsFile (fs : FS) (p : String) : Bool :=
  (fs.files.lookup p).isSome

/-- `Path.write_bytes`: full overwrite of the file at `p`, raising
(`Except.error`) when the OS refuses the write. -/
def FS.writeBytes (fs : FS) (p content : String) : Except String FS :=
  if fs.unwritable.contains p then
    Except.error ("write failed: " ++ p)
  else
    Except.ok { fs with files := (p, content) :: fs.files.filter (fun kv => kv.1 ≠ p) }

/-- Modelled from the spec: `ensure_directory` in `utils.py` is not among
the provided sources.  The spec: create the directory recursively if
absent; never error if already present. -/
def ensure_directory (fs : FS) (d : String) : FS :=
  if fs.dirs.contains d then fs else { fs with dirs := d :: fs.dirs }

/-- One page of a Docling document: its text and the extracted images
(each image is its raw base64 payload). -/
structure DocPage where
  text : String
  images : List String
  deriving DecidableEq, Repr

/-- Outcome of `converter.convert(path)`: an optional document plus the
engine-reported status string. -/
structure DoclingResult where
  document : Option (List DocPage)
  status : String
  deriving DecidableEq, Repr

/-- The opaque conversion engine: `convert` may itself raise
(`Except.error`) or return a `DoclingResult`. -/
structure Engine where
  convertDoc : String → Except String DoclingResult

/-- Docling's `ImageRefMode`: embed images inline or reference external
files. -/
inductive ImageRefMode where
  | embedded
  | referenced
  deriving DecidableEq, Repr

/-- Join a list of strings with a separator between consecutive
elements (model of Markdown page concatenation). -/
def joinSep (sep : String) : List String → String
  | [] => ""
  | [p] => p
  | p :: q :: rest => p ++ sep ++ joinSep sep (q :: rest)

/-- Render one extracted image: inline data URI under `embedded`, an
external file reference under `referenced`. -/
def renderImage (mode : ImageRefMode) (img : String) : String :=
  match mode with
  | ImageRefMode.embedded => "![image](data:image/png;base64," ++ img ++ ")"
  | ImageRefMode.referenced => "![image](" ++ img ++ ".png)"

/-- Render one page: its text followed by its rendered images. -/
def renderPage (mode : ImageRefMode) (pg : DocPage) : String :=
  pg.text ++ joinSep "" (pg.images.map (renderImage mode))

/-- `document.export_to_markdown(image_mode, page_break_placeholder)`:
pages rendered under the given image mode, joined by the placeholder. -/
def export_to_markdown (mode : ImageRefMode) (placeholder : String) (pages : List DocPage) : String :=
  joinSep placeholder (pages.map (renderPage mode))

/-- The page-break placeholder passed at `converter.py` line 168. -/
def pageBreakPlaceholder : String := "\n\n--- Page Break ---\n\n"

/-- `_render_markdown` (conversion step, `converter.py` lines 159-169):
invoke the engine; if it raised, propagate; if it produced no document,
raise a `RuntimeError` naming the file and the status; otherwise export
to Markdown with embedded images and the page-break placeholder. -/
def _render_markdown (eng : Engine) (file_path : String) : Except String String :=
  match eng.convertDoc file_path with
  | Except.error e => Except.error e
  | Except.ok res =>
    match res.document with
    | none => Except.error ("Docling conversion failed for " ++ file_path ++ ": " ++ res.status)
    | some pages => Except.ok (export_to_markdown ImageRefMode.embedded pageBreakPlaceholder pages)

/-- `ConversionResult` (`converter.py` lines 79-85): immutable record of
one conversion attempt. -/
structure ConversionResult where
  source : String
  output : String
  status : String
  deriving DecidableEq, Repr

/-- Result of one `convert_attachment_to_markdown` call: either the
returned `ConversionResult` or the propagated `FileNotFoundError`. -/
inductive ConvertOutcome where
  | ok : ConversionResult → ConvertOutcome
  | fileNotFound : String → ConvertOutcome
  deriving DecidableEq, Repr

/-- Observable trace of one call: its outcome, the filesystem after the
call, and whether the conversion engine was invoked. -/
structure ConvertTrace where
  outcome : ConvertOutcome
  fs : FS
  engineCalled : Bool
  deriving DecidableEq, Repr

/-- The status of the returned result, when the call returned one. -/
def ConvertTrace.resultStatus (t : ConvertTrace) : Option String :=
  match t.outcome with
  | ConvertOutcome.ok r => some r.status
  | ConvertOutcome.fileNotFound _ => none

/-- `convert_attachment_to_markdown` (`converter.py` lines 18-76):
compute the output path; skip when it exists and overwrite is off;
honour dry-run; ensure the destination directory; raise
`FileNotFoundError` when the source is absent; otherwise render and
write inside a try block whose failures yield status `skipped`. -/
def convert_attachment_to_markdown (eng : Engine) (attachment : AttachmentMetadata)
    (file_path : String) (settings : ExportSettings) (fs : FS) : ConvertTrace :=
  let output_path := compute_output_path attachment settings.output_dir
  if fs.existsFile output_path && !settings.overwrite then
    ⟨ConvertOutcome.ok ⟨file_path, output_path, "skipped"⟩, fs, false⟩
  else if settings.dry_run then
    ⟨ConvertOutcome.ok ⟨file_path, output_path, "dry-run"⟩, fs, false⟩
  else
    let fs1 := ensure_directory fs (outputSubdir attachment settings.output_dir)
    if !(fs1.existsFile file_path) then
      ⟨ConvertOutcome.fileNotFound ("File not found for conversion: " ++ file_path), fs1, false⟩
    else
      match _render_markdown eng file_path with
      | Except.error _ => ⟨ConvertOutcome.ok ⟨file_path, output_path, "skipped"⟩, fs1, true⟩
      | Except.ok markdown =>
        match fs1.writeBytes output_path markdown with
        | Except.error _ => ⟨ConvertOutcome.ok ⟨file_path, output_path, "skipped"⟩, fs1, true⟩
        | Except.ok fs2 => ⟨ConvertOutcome.ok ⟨file_path, output_path, "converted"⟩, fs2, true⟩

/-! ### Converter-handle cache (`_render_markdown`, lines 132-157) -/

/-- Docling's `AcceleratorDevice` enumeration. -/
inductive AcceleratorDevice where
  | auto
  | cpu
  | cuda
  | mps
  deriving DecidableEq, Repr

/-- The cache key computed at `converter.py` lines 135-140: the tuple of
tuning options affecting converter configuration. -/
def compute_cache_key (s : ExportSettings) (device : AcceleratorDevice) :
    Bool × Bool × Int × AcceleratorDevice :=
  (s.force_full_page_ocr, s.do_picture_description, s.image_resolution_scale, device)

/-- The worker-local cache `_converter_local`: the last-used key and the
cached converter instance (instances identified by a numeric id). -/
structure ConverterLocal where
  key : Option (Bool × Bool × Int × AcceleratorDevice)
  converter : Option Nat
  deriving DecidableEq, Repr

/-- Observable outcome of the cache lookup: which instance was used, the
cache afterwards, and whether a new instance was constructed. -/
structure RenderCacheStep where
  used : Nat
  state : ConverterLocal
  constructed : Bool
  deriving DecidableEq, Repr

/-- The cache inspection and update of `_render_markdown` (lines
141-157): rebuild when no converter is cached or the cached key differs
from the current one; otherwise reuse the cached instance.  A freshly
constructed instance gets the id `freshId`. -/
def render_cache_step (s : ExportSettings) (device : AcceleratorDevice)
    (st : ConverterLocal) (freshId : Nat) : RenderCacheStep :=
  let cache_key := compute_cache_key s device
  match st.converter with
  | none => ⟨freshId, ⟨some cache_key, some freshId⟩, true⟩
  | some c =>
    if st.key ≠ some cache_key then ⟨freshId, ⟨some cache_key, some freshId⟩, true⟩
    else ⟨c, st, false⟩

/-! ### Helper predicates and lemmas -/

/-- `t` occurs as a contiguous substring of `s`. -/
def ContainsStr (s t : String) : Prop :=
  ∃ a b : String, s = a ++ t ++ b

theorem containsStr_refl (s : String) : ContainsStr s s :=
  ⟨"", "", by simp⟩

theorem containsStr_append_left (u s t : String) (h : ContainsStr s t) :
    ContainsStr (u ++ s) t := by
  obtain ⟨a, b, rfl⟩ := h
  exact ⟨u ++ a, b, by simp only [String.append_assoc]⟩

theorem containsStr_append_right (s t u : String) (h : ContainsStr s t) :
    ContainsStr (s ++ u) t := by
  obtain ⟨a, b, rfl⟩ := h
  exact ⟨a, b ++ u, by simp only [String.append_assoc]⟩

theorem containsStr_trans (s t u : String) (h1 : ContainsStr s t) (h2 : ContainsStr t u) :
    ContainsStr s u := by
  obtain ⟨a, b, rfl⟩ := h1
  obtain ⟨c, d, rfl⟩ := h2
  exact ⟨a ++ c, d ++ b, by simp only [String.append_assoc]⟩

theorem mem_joinSep (sep x : String) (l : List String) (hx : x ∈ l) :
    ContainsStr (joinSep sep l) x := by
  induction l with
  | nil => cases hx
  | cons y rest ih =>
    cases rest with
    | nil =>
      have hxy : x = y := by simpa using hx
      subst hxy
      exact containsStr_refl x
    | cons z rest2 =>
      rcases List.mem_cons.mp hx with h | h
      · subst h
        exact ⟨"", sep ++ joinSep sep (z :: rest2), by
          simp only [joinSep, String.empty_append, String.append_assoc]⟩
      · exact containsStr_append_left (y ++ sep) _ x (ih h)

theorem joinSep_contains_sep (sep : String) (l : List String) (h : 2 ≤ l.length) :
    ContainsStr (joinSep sep l) sep := by
  cases l with
  | nil => simp at h
  | cons x rest =>
    cases rest with
    | nil => simp at h
    | cons y rest2 => exact ⟨x, joinSep sep (y :: rest2), rfl⟩

theorem ensure_directory_files (fs : FS) (d : String) :
    (ensure_directory fs d).files = fs.files := by
  unfold ensure_directory
  split <;> rfl

theorem ensure_directory_unwritable (fs : FS) (d : String) :
    (ensure_directory fs d).unwritable = fs.unwritable := by
  unfold ensure_directory
  split <;> rfl

theorem ensure_directory_existsFile (fs : FS) (d p : String) :
    (ensure_directory fs d).existsFile p = fs.existsFile p := by
  unfold FS.existsFile
  rw [ensure_directory_files]

theorem writeBytes_lookup (fs fs' : FS) (p c : String)
    (h : fs.writeBytes p c = Except.ok fs') : fs'.files.lookup p = some c := by
  unfold FS.writeBytes at h
  split at h
  · cases h
  · cases h
    simp [List.lookup]

/-! ### Concrete fixtures for counterexamples and witnesses -/

/-- The spec's scenario attachment. -/
def att0 : AttachmentMetadata := ⟨"A1", "My Paper", "P1", "Thesis"⟩

/-- Baseline settings: output under `out`, no overwrite, no dry-run. -/
def settings0 : ExportSettings := ⟨"out", false, false, false, false, 2, 4⟩

/-- An engine whose `convert` raises. -/
def engRaise : Engine := ⟨fun _ => Except.error "boom"⟩

/-- An engine returning a fixed two-page document with one image. -/
def engTwoPages : Engine :=
  ⟨fun _ => Except.ok ⟨some [⟨"page one", ["IMGDATA"]⟩, ⟨"page two", []⟩], "SUCCESS"⟩⟩

/-- An engine whose result carries no document. -/
def engNoDoc : Engine := ⟨fun _ => Except.ok ⟨none, "FAILURE"⟩⟩

/-! ### Claims -/

/-- Claim C1, counterexample: with `dry_run = true`, a pre-existing
output path and `overwrite = false`, the skip branch at line 39 fires
before the dry-run branch at line 47, so the status is `skipped`, not
`dry-run`. -/
theorem c1_counterexample :
    (⟨"out", false, true, false, false, 2, 4⟩ : ExportSettings).dry_run = true ∧
    (convert_attachment_to_markdown engRaise att0 "src.pdf"
        ⟨"out", false, true, false, false, 2, 4⟩
        ⟨[(compute_output_path att0 "out", "old")], [], []⟩).resultStatus = some "skipped" ∧
    ("skipped" : String) ≠ "dry-run" := by
  refine ⟨rfl, ?_, by decide⟩
  rfl

/-- Claim C1 (amended): with `dry_run = true`, whenever the skip branch
does not fire (output absent or overwrite on), convert returns status
`dry-run`, leaves the filesystem untouched and never invokes the
engine. -/
theorem convert_dry_run (eng : Engine) (att : AttachmentMetadata) (fp : String)
    (s : ExportSettings) (fs : FS)
    (hdry : s.dry_run = true)
    (hns : (fs.existsFile (compute_output_path att s.output_dir) && !s.overwrite) = false) :
    convert_attachment_to_markdown eng att fp s fs =
      ⟨ConvertOutcome.ok ⟨fp, compute_output_path att s.output_dir, "dry-run"⟩, fs, false⟩ := by
  simp [convert_attachment_to_markdown, hns, hdry]

/-- Claim C1 amended witness: a concrete dry-run call with no
pre-existing output. -/
theorem convert_dry_run_witness :
    convert_attachment_to_markdown engRaise att0 "src.pdf"
        ⟨"out", false, true, false, false, 2, 4⟩ ⟨[], [], []⟩ =
      ⟨ConvertOutcome.ok ⟨"src.pdf", compute_output_path att0 "out", "dry-run"⟩,
        ⟨[], [], []⟩, false⟩ :=
  convert_dry_run engRaise att0 "src.pdf" ⟨"out", false, true, false, false, 2, 4⟩
    ⟨[], [], []⟩ rfl (by decide)

/-- Claim C4: when the output path exists and overwrite is off, convert
returns status `skipped` with the filesystem untouched and no engine
invocation, with no hypothesis on dry-run, source existence or the
engine — the check precedes all of them. -/
theorem convert_skips_existing (eng : Engine) (att : AttachmentMetadata) (fp : String)
    (s : ExportSettings) (fs : FS)
    (hex : fs.existsFile (compute_output_path att s.output_dir) = true)
    (hov : s.overwrite = false) :
    convert_attachment_to_markdown eng att fp s fs =
      ⟨ConvertOutcome.ok ⟨fp, compute_output_path att s.output_dir, "skipped"⟩, fs, false⟩ := by
  simp [convert_attachment_to_markdown, hex, hov]

/-- Claim C4 witness: concrete call with pre-existing output, overwrite
off and dry-run on — still `skipped`, untouched filesystem. -/
theorem convert_skips_existing_witness :
    convert_attachment_to_markdown engRaise att0 "src.pdf"
        ⟨"out", false, true, false, false, 2, 4⟩
        ⟨[(compute_output_path att0 "out", "old")], [], []⟩ =
      ⟨ConvertOutcome.ok ⟨"src.pdf", compute_output_path att0 "out", "skipped"⟩,
        ⟨[(compute_output_path att0 "out", "old")], [], []⟩, false⟩ :=
  convert_skips_existing engRaise att0 "src.pdf" ⟨"out", false, true, false, false, 2, 4⟩
    ⟨[(compute_output_path att0 "out", "old")], [], []⟩ (by decide) rfl

/-- Claim C2: when the skip and dry-run branches are not taken and the
source file is absent, convert propagates a `FileNotFoundError` whose
message contains the missing path, and creates no file (the file map is
unchanged; only the destination directory may have been created). -/
theorem convert_missing_source (eng : Engine) (att : AttachmentMetadata) (fp : String)
    (s : ExportSettings) (fs : FS)
    (hns : (fs.existsFile (compute_output_path att s.output_dir) && !s.overwrite) = false)
    (hdry : s.dry_run = false)
    (hsrc : fs.existsFile fp = false) :
    convert_attachment_to_markdown eng att fp s fs =
      ⟨ConvertOutcome.fileNotFound ("File not found for conversion: " ++ fp),
        ensure_directory fs (outputSubdir att s.output_dir), false⟩ ∧
    (convert_attachment_to_markdown eng att fp s fs).fs.files = fs.files ∧
    ContainsStr ("File not found for conversion: " ++ fp) fp := by
  have heq : convert_attachment_to_markdown eng att fp s fs =
      ⟨ConvertOutcome.fileNotFound ("File not found for conversion: " ++ fp),
        ensure_directory fs (outputSubdir att s.output_dir), false⟩ := by
    simp [convert_attachment_to_markdown, hns, hdry, ensure_directory_existsFile, hsrc]
  refine ⟨heq, ?_, ?_⟩
  · rw [heq]
    exact ensure_directory_files fs _
  · exact ⟨"File not found for conversion: ", "", by simp⟩

/-- Claim C2 witness: a concrete call on an empty filesystem. -/
theorem convert_missing_source_witness :
    convert_attachment_to_markdown engRaise att0 "missing.pdf" settings0 ⟨[], [], []⟩ =
      ⟨ConvertOutcome.fileNotFound ("File not found for conversion: " ++ "missing.pdf"),
        ensure_directory ⟨[], [], []⟩ (outputSubdir att0 settings0.output_dir), false⟩ ∧
    (convert_attachment_to_markdown engRaise att0 "missing.pdf" settings0
        ⟨[], [], []⟩).fs.files = (⟨[], [], []⟩ : FS).files ∧
    ContainsStr ("File not found for conversion: " ++ "missing.pdf") "missing.pdf" :=
  convert_missing_source engRaise att0 "missing.pdf" settings0 ⟨[], [], []⟩
    (by decide) rfl (by decide)

/-- Claim C3: once the conversion/write phase is reached, convert always
returns a `ConversionResult` (never a raised error): a raising engine, an
engine producing no document (modelled inside `_render_markdown`), or a
failing write all yield status `skipped`. -/
theorem convert_catches_phase_errors (eng : Engine) (att : AttachmentMetadata) (fp : String)
    (s : ExportSettings) (fs : FS)
    (hns : (fs.existsFile (compute_output_path att s.output_dir) && !s.overwrite) = false)
    (hdry : s.dry_run = false)
    (hsrc : fs.existsFile fp = true) :
    (∃ r, (convert_attachment_to_markdown eng att fp s fs).outcome = ConvertOutcome.ok r) ∧
    (∀ e, _render_markdown eng fp = Except.error e →
      convert_attachment_to_markdown eng att fp s fs =
        ⟨ConvertOutcome.ok ⟨fp, compute_output_path att s.output_dir, "skipped"⟩,
          ensure_directory fs (outputSubdir att s.output_dir), true⟩) ∧
    (∀ md e, _render_markdown eng fp = Except.ok md →
      (ensure_directory fs (outputSubdir att s.output_dir)).writeBytes
          (compute_output_path att s.output_dir) md = Except.error e →
      convert_attachment_to_markdown eng att fp s fs =
        ⟨ConvertOutcome.ok ⟨fp, compute_output_path att s.output_dir, "skipped"⟩,
          ensure_directory fs (outputSubdir att s.output_dir), true⟩) := by
  refine ⟨?_, ?_, ?_⟩
  · rcases hr : _render_markdown eng fp with e | md
    · exact ⟨⟨fp, compute_output_path att s.output_dir, "skipped"⟩, by
        simp [convert_attachment_to_markdown, hns, hdry, ensure_directory_existsFile, hsrc, hr]⟩
    · rcases hw : (ensure_directory fs (outputSubdir att s.output_dir)).writeBytes
          (compute_output_path att s.output_dir) md with e2 | fs2
      · exact ⟨⟨fp, compute_output_path att s.output_dir, "skipped"⟩, by
          simp [convert_attachment_to_markdown, hns, hdry, ensure_directory_existsFile,
            hsrc, hr, hw]⟩
      · exact ⟨⟨fp, compute_output_path att s.output_dir, "converted"⟩, by
          simp [convert_attachment_to_markdown, hns, hdry, ensure_directory_existsFile,
            hsrc, hr, hw]⟩
  · intro e he
    simp [convert_attachment_to_markdown, hns, hdry, ensure_directory_existsFile, hsrc, he]
  · intro md e hmd hw
    simp [convert_attachment_to_markdown, hns, hdry, ensure_directory_existsFile, hsrc, hmd, hw]

/-- Claim C3 witness: a raising engine on an existing source file yields
status `skipped` and no raised error. -/
theorem convert_catches_phase_errors_witness :
    (∃ r, (convert_attachment_to_markdown engRaise att0 "src.pdf" settings0
        ⟨[("src.pdf", "PDF")], [], []⟩).outcome = ConvertOutcome.ok r) ∧
    (∀ e, _render_markdown engRaise "src.pdf" = Except.error e →
      convert_attachment_to_markdown engRaise att0 "src.pdf" settings0
          ⟨[("src.pdf", "PDF")], [], []⟩ =
        ⟨ConvertOutcome.ok
            ⟨"src.pdf", compute_output_path att0 settings0.output_dir, "skipped"⟩,
          ensure_directory ⟨[("src.pdf", "PDF")], [], []⟩
            (outputSubdir att0 settings0.output_dir), true⟩) ∧
    (∀ md e, _render_markdown engRaise "src.pdf" = Except.ok md →
      (ensure_directory (⟨[("src.pdf", "PDF")], [], []⟩ : FS)
          (outputSubdir att0 settings0.output_dir)).writeBytes
          (compute_output_path att0 settings0.output_dir) md = Except.error e →
      convert_attachment_to_markdown engRaise att0 "src.pdf" settings0
          ⟨[("src.pdf", "PDF")], [], []⟩ =
        ⟨ConvertOutcome.ok
            ⟨"src.pdf", compute_output_path att0 settings0.output_dir, "skipped"⟩,
          ensure_directory ⟨[("src.pdf", "PDF")], [], []⟩
            (outputSubdir att0 settings0.output_dir), true⟩) :=
  convert_catches_phase_errors engRaise att0 "src.pdf" settings0
    ⟨[("src.pdf", "PDF")], [], []⟩ (by decide) rfl (by decide)

/-- Claim C5: when rendering and writing both succeed, convert writes
the rendered Markdown to the output path as a full overwrite (the output
path maps to exactly the new content afterwards) and returns status
`converted`. -/
theorem convert_success_writes (eng : Engine) (att : AttachmentMetadata) (fp : String)
    (s : ExportSettings) (fs : FS) (md : String) (fs2 : FS)
    (hns : (fs.existsFile (compute_output_path att s.output_dir) && !s.overwrite) = false)
    (hdry : s.dry_run = false)
    (hsrc : fs.existsFile fp = true)
    (hmd : _render_markdown eng fp = Except.ok md)
    (hw : (ensure_directory fs (outputSubdir att s.output_dir)).writeBytes
        (compute_output_path att s.output_dir) md = Except.ok fs2) :
    convert_attachment_to_markdown eng att fp s fs =
      ⟨ConvertOutcome.ok ⟨fp, compute_output_path att s.output_dir, "converted"⟩, fs2, true⟩ ∧
    fs2.files.lookup (compute_output_path att s.output_dir) = some md := by
  constructor
  · simp [convert_attachment_to_markdown, hns, hdry, ensure_directory_existsFile, hsrc, hmd, hw]
  · exact writeBytes_lookup _ _ _ _ hw

/-- The spec's scenario document: two pages, one extracted image. -/
def doc0 : List DocPage := [⟨"page one", ["IMGDATA"]⟩, ⟨"page two", []⟩]

/-- Markdown rendered from `doc0`. -/
def md0 : String := export_to_markdown ImageRefMode.embedded pageBreakPlaceholder doc0

/-- A filesystem holding only the downloaded source file. -/
def fsSrc0 : FS := ⟨[("src.pdf", "PDF")], [], []⟩

/-- `fsSrc0` after directory creation. -/
def fs1w : FS := ensure_directory fsSrc0 (outputSubdir att0 "out")

/-- `fs1w` after the successful Markdown write. -/
def fs2w : FS :=
  ⟨(compute_output_path att0 "out", md0) ::
      fs1w.files.filter (fun kv => kv.1 ≠ compute_output_path att0 "out"),
    fs1w.dirs, fs1w.unwritable⟩

/-- Claim C5 witness: a concrete successful conversion. -/
theorem convert_success_writes_witness :
    convert_attachment_to_markdown engTwoPages att0 "src.pdf" settings0 fsSrc0 =
      ⟨ConvertOutcome.ok
          ⟨"src.pdf", compute_output_path att0 settings0.output_dir, "converted"⟩,
        fs2w, true⟩ ∧
    fs2w.files.lookup (compute_output_path att0 settings0.output_dir) = some md0 :=
  convert_success_writes engTwoPages att0 "src.pdf" settings0 fsSrc0 md0 fs2w
    (by decide) rfl (by decide) rfl rfl

/-- Both calls of the double-conversion scenario: the second call runs
on the filesystem left by the first. -/
def convertTwice (eng : Engine) (att : AttachmentMetadata) (fp : String)
    (s : ExportSettings) (fs : FS) : ConvertTrace × ConvertTrace :=
  let t1 := convert_attachment_to_markdown eng att fp s fs
  (t1, convert_attachment_to_markdown eng att fp s t1.fs)

/-- The filesystem after a successful render-and-write pass. -/
def writtenFS (att : AttachmentMetadata) (s : ExportSettings) (fs : FS) (md : String) : FS :=
  ⟨(compute_output_path att s.output_dir, md) ::
      (ensure_directory fs (outputSubdir att s.output_dir)).files.filter
        (fun kv => kv.1 ≠ compute_output_path att s.output_dir),
    (ensure_directory fs (outputSubdir att s.output_dir)).dirs,
    (ensure_directory fs (outputSubdir att s.output_dir)).unwritable⟩

theorem convert_eq_skip (eng : Engine) (att : AttachmentMetadata) (fp : String)
    (s : ExportSettings) (fs : FS)
    (hex : fs.existsFile (compute_output_path att s.output_dir) = true)
    (hov : s.overwrite = false) :
    convert_attachment_to_markdown eng att fp s fs =
      ⟨ConvertOutcome.ok ⟨fp, compute_output_path att s.output_dir, "skipped"⟩, fs, false⟩ := by
  simp [convert_attachment_to_markdown, hex, hov]

theorem convert_eq_success (eng : Engine) (att : AttachmentMetadata) (fp : String)
    (s : ExportSettings) (fs : FS) (md : String)
    (hns : (fs.existsFile (compute_output_path att s.output_dir) && !s.overwrite) = false)
    (hdry : s.dry_run = false)
    (hsrc : fs.existsFile fp = true)
    (hmd : _render_markdown eng fp = Except.ok md)
    (hwr : fs.unwritable.contains (compute_output_path att s.output_dir) = false) :
    convert_attachment_to_markdown eng att fp s fs =
      ⟨ConvertOutcome.ok ⟨fp, compute_output_path att s.output_dir, "converted"⟩,
        writtenFS att s fs md, true⟩ := by
  have hwr' : compute_output_path att s.output_dir ∉ fs.unwritable := by
    simpa using hwr
  have hw : (ensure_directory fs (outputSubdir att s.output_dir)).writeBytes
      (compute_output_path att s.output_dir) md = Except.ok (writtenFS att s fs md) := by
    simp [FS.writeBytes, ensure_directory_unwritable, hwr', writtenFS]
  simp [convert_attachment_to_markdown, hns, hdry, ensure_directory_existsFile, hsrc, hmd, hw]

theorem writtenFS_existsFile (att : AttachmentMetadata) (s : ExportSettings) (fs : FS)
    (md : String) :
    (writtenFS att s fs md).existsFile (compute_output_path att s.output_dir) = true := by
  simp [writtenFS, FS.existsFile, List.lookup]

/-- Settings with dry-run enabled and overwrite off. -/
def settingsDry : ExportSettings := ⟨"out", false, true, false, false, 2, 4⟩

/-- Claim C6, counterexample: with `overwrite = false`, `dry_run = true`
and no pre-existing output, the first call yields status `dry-run`,
which is neither `converted` nor `skipped`. -/
theorem c6_counterexample :
    settingsDry.overwrite = false ∧
    fsSrc0.existsFile (compute_output_path att0 settingsDry.output_dir) = false ∧
    (convertTwice engTwoPages att0 "src.pdf" settingsDry fsSrc0).1.resultStatus =
      some "dry-run" ∧
    ("dry-run" : String) ≠ "converted" ∧ ("dry-run" : String) ≠ "skipped" := by
  refine ⟨rfl, by decide, rfl, by decide, by decide⟩

/-- Claim C6 (amended): with `overwrite = false`, `dry_run = false`, an
existing source file, a succeeding render and a writable output path,
the first call yields `converted` (or `skipped` when the output
pre-existed), the second call yields `skipped`, and the second call
leaves the filesystem exactly as the first call left it. -/
theorem convert_idempotent_nonoverwrite (eng : Engine) (att : AttachmentMetadata)
    (fp : String) (s : ExportSettings) (fs : FS)
    (hov : s.overwrite = false)
    (hdry : s.dry_run = false)
    (hsrc : fs.existsFile fp = true)
    (hmd : ∃ md, _render_markdown eng fp = Except.ok md)
    (hwr : fs.unwritable.contains (compute_output_path att s.output_dir) = false) :
    (fs.existsFile (compute_output_path att s.output_dir) = false →
      (convertTwice eng att fp s fs).1.resultStatus = some "converted") ∧
    (fs.existsFile (compute_output_path att s.output_dir) = true →
      (convertTwice eng att fp s fs).1.resultStatus = some "skipped") ∧
    (convertTwice eng att fp s fs).2.resultStatus = some "skipped" ∧
    (convertTwice eng att fp s fs).2.fs = (convertTwice eng att fp s fs).1.fs := by
  obtain ⟨md, hmd⟩ := hmd
  cases hex : fs.existsFile (compute_output_path att s.output_dir) with
  | true =>
    have h1 := convert_eq_skip eng att fp s fs hex hov
    refine ⟨fun hc => by simp [hex] at hc, fun _ => ?_, ?_, ?_⟩
    · simp [convertTwice, h1, ConvertTrace.resultStatus]
    · simp [convertTwice, h1, ConvertTrace.resultStatus]
    · simp [convertTwice, h1]
  | false =>
    have hns : (fs.existsFile (compute_output_path att s.output_dir) && !s.overwrite) = false := by
      simp [hex]
    have h1 := convert_eq_success eng att fp s fs md hns hdry hsrc hmd hwr
    have h2 := convert_eq_skip eng att fp s (writtenFS att s fs md)
      (writtenFS_existsFile att s fs md) hov
    refine ⟨fun _ => ?_, fun hc => by simp [hex] at hc, ?_, ?_⟩
    · simp [convertTwice, h1, ConvertTrace.resultStatus]
    · simp [convertTwice, h1, h2, ConvertTrace.resultStatus]
    · simp [convertTwice, h1, h2]

/-- Claim C6 amended witness: concrete double conversion on a fresh
output location. -/
theorem convert_idempotent_nonoverwrite_witness :
    (fsSrc0.existsFile (compute_output_path att0 settings0.output_dir) = false →
      (convertTwice engTwoPages att0 "src.pdf" settings0 fsSrc0).1.resultStatus =
        some "converted") ∧
    (fsSrc0.existsFile (compute_output_path att0 settings0.output_dir) = true →
      (convertTwice engTwoPages att0 "src.pdf" settings0 fsSrc0).1.resultStatus =
        some "skipped") ∧
    (convertTwice engTwoPages att0 "src.pdf" settings0 fsSrc0).2.resultStatus =
      some "skipped" ∧
    (convertTwice engTwoPages att0 "src.pdf" settings0 fsSrc0).2.fs =
      (convertTwice engTwoPages att0 "src.pdf" settings0 fsSrc0).1.fs :=
  convert_idempotent_nonoverwrite engTwoPages att0 "src.pdf" settings0 fsSrc0
    rfl rfl (by decide) ⟨md0, rfl⟩ (by decide)

/-- Claim C7: the converter handle is keyed exactly by the tuple of the
OCR flag, the picture-description flag, the image scale and the device:
a new instance is constructed iff nothing is cached or the cached key
differs, and then it replaces the cached one; on a key match the cached
instance is reused and the cache is unchanged. -/
theorem render_cache_step_spec (s : ExportSettings) (device : AcceleratorDevice)
    (st : ConverterLocal) (freshId : Nat) :
    ((render_cache_step s device st freshId).constructed = true ↔
      (st.converter = none ∨
        st.key ≠ some (s.force_full_page_ocr, s.do_picture_description,
          s.image_resolution_scale, device))) ∧
    (∀ c, st.converter = some c →
      st.key = some (s.force_full_page_ocr, s.do_picture_description,
        s.image_resolution_scale, device) →
      render_cache_step s device st freshId = ⟨c, st, false⟩) ∧
    ((render_cache_step s device st freshId).constructed = true →
      (render_cache_step s device st freshId).state =
        ⟨some (s.force_full_page_ocr, s.do_picture_description,
          s.image_resolution_scale, device), some freshId⟩ ∧
      (render_cache_step s device st freshId).used = freshId) := by
  obtain ⟨k, c⟩ := st
  cases c with
  | none =>
    refine ⟨by simp [render_cache_step], ?_, fun _ => ⟨rfl, rfl⟩⟩
    intro c hc
    cases hc
  | some c0 =>
    by_cases hk : k = some (s.force_full_page_ocr, s.do_picture_description,
      s.image_resolution_scale, device)
    · subst hk
      refine ⟨by simp [render_cache_step, compute_cache_key], ?_, ?_⟩
      · intro c hc _
        injection hc with h1
        subst h1
        simp [render_cache_step, compute_cache_key]
      · intro hcon
        simp [render_cache_step, compute_cache_key] at hcon
    · refine ⟨by simp [render_cache_step, compute_cache_key, hk], ?_, ?_⟩
      · intro c _ hkey
        exact absurd hkey hk
      · intro _
        constructor <;> simp [render_cache_step, compute_cache_key, hk]

/-- Claim C7 witness: a matching cache key reuses the cached instance. -/
theorem render_cache_step_spec_witness :
    render_cache_step settings0 AcceleratorDevice.auto
        ⟨some (false, false, 2, AcceleratorDevice.auto), some 3⟩ 7 =
      ⟨3, ⟨some (false, false, 2, AcceleratorDevice.auto), some 3⟩, false⟩ :=
  (render_cache_step_spec settings0 AcceleratorDevice.auto
      ⟨some (false, false, 2, AcceleratorDevice.auto), some 3⟩ 7).2.1 3 rfl rfl

theorem ensure_directory_contains (fs : FS) (d : String) :
    (ensure_directory fs d).dirs.contains d = true := by
  unfold ensure_directory
  split
  · assumption
  · simp

/-- Claim C8: a successful render produces the Markdown exported with
`ImageRefMode.EMBEDDED` and the page-break placeholder, so it contains
the literal `--- Page Break ---` whenever the document has at least two
pages, and every extracted image appears inline as a data URI. -/
theorem render_markdown_self_contained (eng : Engine) (fp : String)
    (pages : List DocPage) (stat : String)
    (h : eng.convertDoc fp = Except.ok ⟨some pages, stat⟩) :
    _render_markdown eng fp =
      Except.ok (export_to_markdown ImageRefMode.embedded pageBreakPlaceholder pages) ∧
    (2 ≤ pages.length →
      ContainsStr (export_to_markdown ImageRefMode.embedded pageBreakPlaceholder pages)
        "--- Page Break ---") ∧
    (∀ pg, pg ∈ pages → ∀ img, img ∈ pg.images →
      ContainsStr (export_to_markdown ImageRefMode.embedded pageBreakPlaceholder pages)
        ("data:image/png;base64," ++ img)) := by
  refine ⟨by simp [_render_markdown, h], ?_, ?_⟩
  · intro h2
    have hlen : 2 ≤ (pages.map (renderPage ImageRefMode.embedded)).length := by
      simpa using h2
    have hsep := joinSep_contains_sep pageBreakPlaceholder _ hlen
    have hmark : ContainsStr pageBreakPlaceholder "--- Page Break ---" :=
      ⟨"\n\n", "\n\n", by decide⟩
    exact containsStr_trans _ _ _ hsep hmark
  · intro pg hpg img himg
    have h1 : ContainsStr (renderImage ImageRefMode.embedded img)
        ("data:image/png;base64," ++ img) := by
      refine ⟨"![image](", ")", ?_⟩
      have e : ("![image](" : String) ++ "data:image/png;base64," =
          "![image](data:image/png;base64," := rfl
      rw [renderImage, ← e]
      simp only [String.append_assoc]
    have h2 : ContainsStr (renderPage ImageRefMode.embedded pg)
        (renderImage ImageRefMode.embedded img) := by
      have hmem : renderImage ImageRefMode.embedded img ∈
          pg.images.map (renderImage ImageRefMode.embedded) :=
        List.mem_map_of_mem _ himg
      exact containsStr_append_left pg.text _ _ (mem_joinSep "" _ _ hmem)
    have h3 : ContainsStr (export_to_markdown ImageRefMode.embedded pageBreakPlaceholder pages)
        (renderPage ImageRefMode.embedded pg) := by
      have hmem : renderPage ImageRefMode.embedded pg ∈
          pages.map (renderPage ImageRefMode.embedded) :=
        List.mem_map_of_mem _ hpg
      exact mem_joinSep pageBreakPlaceholder _ _ hmem
    exact containsStr_trans _ _ _ (containsStr_trans _ _ _ h3 h2) h1

/-- Claim C8 witness: the two-page one-image document yields Markdown
containing the page-break marker and the inlined image data. -/
theorem render_markdown_self_contained_witness :
    _render_markdown engTwoPages "src.pdf" = Except.ok md0 ∧
    ContainsStr md0 "--- Page Break ---" ∧
    ContainsStr md0 ("data:image/png;base64," ++ "IMGDATA") :=
  ⟨(render_markdown_self_contained engTwoPages "src.pdf" doc0 "SUCCESS" rfl).1,
    (render_markdown_self_contained engTwoPages "src.pdf" doc0 "SUCCESS" rfl).2.1
      (by decide),
    (render_markdown_self_contained engTwoPages "src.pdf" doc0 "SUCCESS" rfl).2.2
      ⟨"page one", ["IMGDATA"]⟩ (by decide) "IMGDATA" (by decide)⟩

/-- Claim C9: whenever convert returns a `ConversionResult`, its source
equals the call's file path, its output equals the path computed from
the attachment and the output directory, and its status is one of
`converted`, `skipped`, `dry-run`.  (The record is immutable by
construction, mirroring the frozen dataclass.) -/
theorem convert_result_wellformed (eng : Engine) (att : AttachmentMetadata) (fp : String)
    (s : ExportSettings) (fs : FS) (r : ConversionResult)
    (h : (convert_attachment_to_markdown eng att fp s fs).outcome = ConvertOutcome.ok r) :
    r.source = fp ∧ r.output = compute_output_path att s.output_dir ∧
    (r.status = "converted" ∨ r.status = "skipped" ∨ r.status = "dry-run") := by
  simp only [convert_attachment_to_markdown] at h
  split at h
  · replace h : ConvertOutcome.ok ⟨fp, compute_output_path att s.output_dir, "skipped"⟩ =
        ConvertOutcome.ok r := h
    injection h with h1
    subst h1
    exact ⟨rfl, rfl, Or.inr (Or.inl rfl)⟩
  · split at h
    · replace h : ConvertOutcome.ok ⟨fp, compute_output_path att s.output_dir, "dry-run"⟩ =
          ConvertOutcome.ok r := h
      injection h with h1
      subst h1
      exact ⟨rfl, rfl, Or.inr (Or.inr rfl)⟩
    · split at h
      · replace h : ConvertOutcome.fileNotFound ("File not found for conversion: " ++ fp) =
            ConvertOutcome.ok r := h
        exact ConvertOutcome.noConfusion h
      · split at h
        · replace h : ConvertOutcome.ok
              ⟨fp, compute_output_path att s.output_dir, "skipped"⟩ = ConvertOutcome.ok r := h
          injection h with h1
          subst h1
          exact ⟨rfl, rfl, Or.inr (Or.inl rfl)⟩
        · split at h
          · replace h : ConvertOutcome.ok
                ⟨fp, compute_output_path att s.output_dir, "skipped"⟩ =
                ConvertOutcome.ok r := h
            injection h with h1
            subst h1
            exact ⟨rfl, rfl, Or.inr (Or.inl rfl)⟩
          · replace h : ConvertOutcome.ok
                ⟨fp, compute_output_path att s.output_dir, "converted"⟩ =
                ConvertOutcome.ok r := h
            injection h with h1
            subst h1
            exact ⟨rfl, rfl, Or.inl rfl⟩

/-- Claim C9 witness: fields of the result of a concrete dry-run call. -/
theorem convert_result_wellformed_witness :
    (⟨"src.pdf", compute_output_path att0 settingsDry.output_dir, "dry-run"⟩ :
        ConversionResult).source = "src.pdf" ∧
    (⟨"src.pdf", compute_output_path att0 settingsDry.output_dir, "dry-run"⟩ :
        ConversionResult).output = compute_output_path att0 settingsDry.output_dir ∧
    ((⟨"src.pdf", compute_output_path att0 settingsDry.output_dir, "dry-run"⟩ :
        ConversionResult).status = "converted" ∨
      (⟨"src.pdf", compute_output_path att0 settingsDry.output_dir, "dry-run"⟩ :
        ConversionResult).status = "skipped" ∨
      (⟨"src.pdf", compute_output_path att0 settingsDry.output_dir, "dry-run"⟩ :
        ConversionResult).status = "dry-run") :=
  convert_result_wellformed engRaise att0 "src.pdf" settingsDry ⟨[], [], []⟩
    ⟨"src.pdf", compute_output_path att0 settingsDry.output_dir, "dry-run"⟩ rfl

/-- Claim C10: on the missing-source path, convert still creates the
destination directory before raising: the error propagates, the
directory is present afterwards, and when it was absent before the call
the filesystem has been mutated despite the raised error. -/
theorem convert_creates_dir_on_missing_source (eng : Engine) (att : AttachmentMetadata)
    (fp : String) (s : ExportSettings) (fs : FS)
    (hns : (fs.existsFile (compute_output_path att s.output_dir) && !s.overwrite) = false)
    (hdry : s.dry_run = false)
    (hsrc : fs.existsFile fp = false) :
    (convert_attachment_to_markdown eng att fp s fs).outcome =
      ConvertOutcome.fileNotFound ("File not found for conversion: " ++ fp) ∧
    (convert_attachment_to_markdown eng att fp s fs).fs.dirs.contains
      (outputSubdir att s.output_dir) = true ∧
    (fs.dirs.contains (outputSubdir att s.output_dir) = false →
      (convert_attachment_to_markdown eng att fp s fs).fs ≠ fs) := by
  have heq : convert_attachment_to_markdown eng att fp s fs =
      ⟨ConvertOutcome.fileNotFound ("File not found for conversion: " ++ fp),
        ensure_directory fs (outputSubdir att s.output_dir), false⟩ := by
    simp [convert_attachment_to_markdown, hns, hdry, ensure_directory_existsFile, hsrc]
  refine ⟨by rw [heq], ?_, ?_⟩
  · rw [heq]
    exact ensure_directory_contains fs _
  · intro hnc
    have hfs : ensure_directory fs (outputSubdir att s.output_dir) =
        ⟨fs.files, outputSubdir att s.output_dir :: fs.dirs, fs.unwritable⟩ := by
      unfold ensure_directory
      rw [hnc]
      simp
    rw [heq]
    show ensure_directory fs (outputSubdir att s.output_dir) ≠ fs
    rw [hfs]
    intro he
    have hd := congrArg (fun x => x.dirs.length) he
    simp at hd

/-- Claim C10 witness: concrete missing-source call on an empty
filesystem creates the destination directory and raises. -/
theorem convert_creates_dir_on_missing_source_witness :
    (convert_attachment_to_markdown engRaise att0 "missing.pdf" settings0
        ⟨[], [], []⟩).outcome =
      ConvertOutcome.fileNotFound ("File not found for conversion: " ++ "missing.pdf") ∧
    (convert_attachment_to_markdown engRaise att0 "missing.pdf" settings0
        ⟨[], [], []⟩).fs.dirs.contains (outputSubdir att0 settings0.output_dir) = true ∧
    ((⟨[], [], []⟩ : FS).dirs.contains (outputSubdir att0 settings0.output_dir) = false →
      (convert_attachment_to_markdown engRaise att0 "missing.pdf" settings0
        ⟨[], [], []⟩).fs ≠ ⟨[], [], []⟩) :=
  convert_creates_dir_on_missing_source engRaise att0 "missing.pdf" settings0
    ⟨[], [], []⟩ (by decide) rfl (by decide)

end ZoteroFiles2md
